import Mathlib

/-!
Shallow embedding of `check_hotwheels_email.py`: the extractor
(`parse_product_list`), the state store (`load_previous_list`,
`save_current_list`), the change detector (the set difference and sort
performed in `main`), and the run controller (`main`), together with
theorems settling the specification claims.

HTML is modelled at the granularity the script's CSS selectors can
distinguish: a rendered page is a list of product containers
(`div.product-grid-item`); each container optionally holds a caption
(`div.caption`, which may or may not contain a `div.out-of-stock` marker),
optionally a name anchor (`a.product-name.ng-binding`, carrying its text),
and possibly an out-of-stock marker sitting outside any caption (which the
script never inspects).  The persisted `previous.json` file is modelled as
a `FileState`: missing, unreadable, undecodable JSON, or a JSON value.
-/

namespace HotWheels

/-- The `div.caption` element of a product container.  `out_of_stock`
records whether a `div.out-of-stock` marker element occurs inside it. -/
structure Caption where
  out_of_stock : Bool
deriving DecidableEq

/-- One `div.product-grid-item` container of the rendered page.
`caption` is the first `div.caption` descendant, if any; `name_anchor` is
the stripped text of the first `a.product-name.ng-binding` descendant, if
any; `stray_out_of_stock` records an out-of-stock marker that occurs in
the container but outside the caption (the script never looks there). -/
structure ProductItem where
  caption : Option Caption
  name_anchor : Option String
  stray_out_of_stock : Bool
deriving DecidableEq

/-- `is_sold_out` mirrors
`caption_div = item.select_one("div.caption")` followed by
`is_sold_out = caption_div and caption_div.select_one("div.out-of-stock")`:
truthy exactly when a caption exists and contains the marker. -/
def is_sold_out (item : ProductItem) : Bool :=
  match item.caption with
  | some cap => cap.out_of_stock
  | none => false

/-- `parse_product_list` on the already-rendered container list: for each
container, skip it when sold out; otherwise append the anchor text when a
name anchor exists (a container without one only logs a warning and
contributes nothing). -/
def parse_product_list : List ProductItem → List String
  | [] => []
  | item :: rest =>
    if is_sold_out item then
      parse_product_list rest
    else
      match item.name_anchor with
      | some name => name :: parse_product_list rest
      | none => parse_product_list rest

/-- A JSON value as `json.load` can produce it (the shapes the script
distinguishes: strings, arrays, and anything else). -/
inductive Json where
  | jstr (s : String)
  | jnum (n : Int)
  | jbool (b : Bool)
  | jnull
  | jarr (xs : List Json)

/-- `isinstance(item, str)` on a decoded JSON value. -/
def isJStr : Json → Bool
  | .jstr _ => true
  | _ => false

/-- Read the string out of a JSON string value. -/
def jsonString? : Json → Option String
  | .jstr s => some s
  | _ => none

/-- `isinstance(data, list) and all(isinstance(item, str) for item in data)`. -/
def isStringList : Json → Bool
  | .jarr xs => xs.all isJStr
  | _ => false

/-- The state of `previous.json` on disk: absent, present but unreadable
(open or read raises), present but not decodable as JSON, or a decoded
JSON value. -/
inductive FileState where
  | missing
  | unreadable
  | badJson
  | json (v : Json)

/-- `load_previous_list`: a missing file, an unreadable file, a JSON
decode error, and content that is not a list of strings all yield `[]`
(each printing its own message); a list of strings is returned as-is. -/
def load_previous_list : FileState → List String
  | .missing => []
  | .unreadable => []
  | .badJson => []
  | .json (Json.jarr xs) =>
      if xs.all isJStr then xs.filterMap jsonString? else []
  | .json _ => []

/-- `save_current_list`: `json.dump(current, f)` — the file now holds the
JSON array of the given strings. -/
def save_current_list (current : List String) : FileState :=
  FileState.json (Json.jarr (current.map Json.jstr))

/-- The comparison step of `main`:
`new_items = sorted(list(current_list_set - prev_list_set))` — the set of
current names minus the set of previous names, listed in lexicographic
order. -/
def new_items (prev current : List String) : List String :=
  List.insertionSort (· ≤ ·) (current.dedup.filter (fun n => !prev.contains n))

/-- The observable outcome of one run of `main`. -/
structure RunResult where
  exitCode : Nat
  newFile : FileState
  emailed : Option (List String)

/-- `main`, as a function of the prior file state and the fetch result
(`none` models `fetch_rendered_html` returning the empty string): on an
empty render it exits 1 before touching the file; otherwise it parses,
diffs the parsed names against the loaded previous list, emails the delta
when non-empty, saves the raw current list unless it is empty, and
exits 0. -/
def main (file : FileState) (fetched : Option (List ProductItem)) : RunResult :=
  let prev := load_previous_list file
  match fetched with
  | none => ⟨1, file, none⟩
  | some items =>
    let current_list := parse_product_list items
    let delta := new_items prev current_list
    let emailed := if delta.isEmpty then none else some delta
    let newFile := if current_list.isEmpty then file else save_current_list current_list
    ⟨0, newFile, emailed⟩

/-! ## Helper lemmas -/

lemma parse_product_list_append (xs ys : List ProductItem) :
    parse_product_list (xs ++ ys) = parse_product_list xs ++ parse_product_list ys := by
  induction xs with
  | nil => rfl
  | cons item rest ih =>
    cases h : is_sold_out item
    · cases hn : item.name_anchor <;> simp [parse_product_list, h, hn, ih]
    · simp [parse_product_list, h, ih]

lemma map_jstr_all_isJStr (l : List String) : (l.map Json.jstr).all isJStr = true := by
  induction l with
  | nil => rfl
  | cons a t ih => simp [isJStr, ih]

lemma filterMap_jsonString_comp_jstr (l : List String) :
    List.filterMap (jsonString? ∘ Json.jstr) l = l := by
  induction l with
  | nil => rfl
  | cons a t ih => simp [jsonString?, ih]

lemma filterMap_jsonString_map_jstr (l : List String) :
    (l.map Json.jstr).filterMap jsonString? = l := by
  rw [List.filterMap_map, filterMap_jsonString_comp_jstr]

lemma new_items_mem (prev current : List String) (n : String) :
    n ∈ new_items prev current ↔ n ∈ current ∧ n ∉ prev := by
  simp [new_items, (List.perm_insertionSort (· ≤ ·) _).mem_iff, List.mem_filter,
    List.mem_dedup]

lemma new_items_nodup (prev current : List String) : (new_items prev current).Nodup :=
  ((List.perm_insertionSort (· ≤ ·) _).nodup_iff).mpr
    ((List.nodup_dedup current).filter _)

lemma new_items_sorted_le (prev current : List String) :
    (new_items prev current).Sorted (· ≤ ·) :=
  List.sorted_insertionSort (· ≤ ·) _

/-! ## Claim theorems -/

/-- Claim C2: when the prior persisted snapshot is non-empty and the
current run's extraction yields an empty snapshot, the persist step skips
the save and the state file is unchanged. -/
theorem empty_current_skips_save (file : FileState) (items : List ProductItem)
    (_hprev : load_previous_list file ≠ [])
    (hcur : parse_product_list items = []) :
    (main file (some items)).newFile = file := by
  simp [main, hcur]

/-- Witness for C2 at a concrete prior file holding `["Car A"]` and a page
whose only container is sold out. -/
theorem empty_current_skips_save_witness :
    load_previous_list (save_current_list ["Car A"]) ≠ []
    ∧ parse_product_list [⟨some ⟨true⟩, some "Car B", false⟩] = []
    ∧ (main (save_current_list ["Car A"])
        (some [⟨some ⟨true⟩, some "Car B", false⟩])).newFile
        = save_current_list ["Car A"] :=
  ⟨by decide, by decide, empty_current_skips_save _ _ (by decide) (by decide)⟩

/-- Claim C3: for snapshots with disjoint name sets, the diff of previous
`A` against current `B` is all of `B` — sorted lexicographically, and a
name is in the delta exactly when it is a name of `B`. -/
theorem diff_disjoint_is_all_of_current (A B : List String)
    (hdisj : ∀ n, n ∈ A → n ∉ B) :
    (new_items A B).Sorted (· ≤ ·) ∧ ∀ n, n ∈ new_items A B ↔ n ∈ B := by
  refine ⟨new_items_sorted_le A B, fun n => ?_⟩
  rw [new_items_mem]
  exact ⟨fun h => h.1, fun hB => ⟨hB, fun hA => hdisj n hA hB⟩⟩

/-- Witness for C3 at `A = ["Car A"]`, `B = ["Car C", "Car B"]`. -/
theorem diff_disjoint_is_all_of_current_witness :
    (∀ n, n ∈ ["Car A"] → n ∉ ["Car C", "Car B"])
    ∧ ((new_items ["Car A"] ["Car C", "Car B"]).Sorted (· ≤ ·)
      ∧ ∀ n, n ∈ new_items ["Car A"] ["Car C", "Car B"] ↔ n ∈ ["Car C", "Car B"]) :=
  ⟨by decide, diff_disjoint_is_all_of_current ["Car A"] ["Car C", "Car B"] (by decide)⟩

/-- Claim C4: a product container whose caption contains an out-of-stock
marker contributes nothing to the extracted snapshot — removing it from
the page leaves the extraction unchanged. -/
theorem sold_out_contributes_nothing (pre post : List ProductItem) (c : ProductItem)
    (h : is_sold_out c = true) :
    parse_product_list (pre ++ c :: post) = parse_product_list (pre ++ post) := by
  have hc : parse_product_list (c :: post) = parse_product_list post := by
    simp [parse_product_list, h]
  rw [parse_product_list_append, hc, ← parse_product_list_append]

/-- Witness for C4: a sold-out container named "Car A" next to an
available container named "Car B". -/
theorem sold_out_contributes_nothing_witness :
    is_sold_out ⟨some ⟨true⟩, some "Car A", false⟩ = true
    ∧ parse_product_list ([] ++ ⟨some ⟨true⟩, some "Car A", false⟩
        :: [⟨none, some "Car B", false⟩])
      = parse_product_list ([] ++ [⟨none, some "Car B", false⟩]) :=
  ⟨by decide, sold_out_contributes_nothing [] [⟨none, some "Car B", false⟩] _ (by decide)⟩

/-- Claim C5: the exit code is `0` exactly on runs where the renderer
produced content, and non-zero exactly when it produced none. -/
theorem exit_code_zero_iff_fetched (file : FileState)
    (fetched : Option (List ProductItem)) :
    ((main file fetched).exitCode = 0 ↔ fetched.isSome = true)
    ∧ ((main file fetched).exitCode ≠ 0 ↔ fetched = none) := by
  cases fetched <;> simp [main]

/-- Claim C6: on fetch failure the run aborts before mutating state — the
persisted snapshot file is unchanged (and the exit code is 1). -/
theorem fetch_failure_preserves_state (file : FileState) :
    (main file none).newFile = file ∧ (main file none).exitCode = 1 :=
  ⟨rfl, rfl⟩

/-- Claim C7: `load_previous_list` returns the empty snapshot whenever the
state file is missing, unreadable, undecodable as JSON, or holds JSON that
is not a list of strings. -/
theorem load_bad_state_empty (fs : FileState)
    (h : fs = FileState.missing ∨ fs = FileState.unreadable ∨ fs = FileState.badJson ∨
         ∃ v, fs = FileState.json v ∧ isStringList v = false) :
    load_previous_list fs = [] := by
  rcases h with rfl | rfl | rfl | ⟨v, rfl, hv⟩
  · rfl
  · rfl
  · rfl
  · cases v <;> simp_all [load_previous_list, isStringList]

/-- Witness for C7 at a state file holding the JSON number `3`. -/
theorem load_bad_state_empty_witness :
    isStringList (Json.jnum 3) = false
    ∧ load_previous_list (FileState.json (Json.jnum 3)) = [] :=
  ⟨rfl, load_bad_state_empty _ (Or.inr (Or.inr (Or.inr ⟨Json.jnum 3, rfl, rfl⟩)))⟩

/-- Claim C8: `save_current_list` followed by `load_previous_list` is the
identity on snapshots, the empty one included. -/
theorem save_load_roundtrip (l : List String) :
    load_previous_list (save_current_list l) = l := by
  simp [save_current_list, load_previous_list, map_jstr_all_isJStr,
    filterMap_jsonString_comp_jstr]

/-- Claim C9: the delta is strictly sorted lexicographically, has no
duplicate names, and each of its names is in the current snapshot and not
in the previous one — for every pair of snapshots, duplicates in the raw
extraction included. -/
theorem delta_sorted_nodup_and_new (prev current : List String) :
    (new_items prev current).Sorted (· < ·)
    ∧ (new_items prev current).Nodup
    ∧ ∀ n, n ∈ new_items prev current → n ∈ current ∧ n ∉ prev :=
  ⟨(new_items_sorted_le prev current).lt_of_le (new_items_nodup prev current),
   new_items_nodup prev current,
   fun n hn => (new_items_mem prev current n).mp hn⟩

/-- Claim C10: a container with no caption element is treated as
available — its anchor name is extracted, even when an out-of-stock marker
sits in the container outside any caption. -/
theorem no_caption_item_available (pre post : List ProductItem) (n : String) (b : Bool) :
    parse_product_list (pre ++ ProductItem.mk none (some n) b :: post)
      = parse_product_list pre ++ n :: parse_product_list post := by
  rw [parse_product_list_append]
  simp [parse_product_list, is_sold_out]

/-- Claim C1, counterexample: a page with two containers both named
"Car A" yields a persisted file whose list holds "Car A" twice, not
exactly once. -/
theorem persisted_list_keeps_duplicates :
    (load_previous_list (main FileState.missing
        (some [⟨none, some "Car A", false⟩, ⟨none, some "Car A", false⟩])).newFile).count
        "Car A" = 2
    ∧ ¬ (load_previous_list (main FileState.missing
        (some [⟨none, some "Car A", false⟩, ⟨none, some "Car A", false⟩])).newFile).count
        "Car A" = 1 := by
  constructor
  · rfl
  · intro h
    exact absurd h (by decide)

/-- Claim C1, amended: the value the change detector compares retains one
entry per name (the delta has no duplicates), while the file persisted for
the next run holds the raw extracted list, duplicate occurrences
included. -/
theorem delta_dedup_persist_raw (file : FileState) (items : List ProductItem)
    (h : parse_product_list items ≠ []) :
    (main file (some items)).newFile = save_current_list (parse_product_list items)
    ∧ (new_items (load_previous_list file) (parse_product_list items)).Nodup := by
  refine ⟨?_, new_items_nodup _ _⟩
  simp [main, h]

/-- Witness for the amended C1 at a one-container page. -/
theorem delta_dedup_persist_raw_witness :
    parse_product_list [⟨none, some "Car A", false⟩] ≠ []
    ∧ ((main FileState.missing (some [⟨none, some "Car A", false⟩])).newFile
        = save_current_list (parse_product_list [⟨none, some "Car A", false⟩])
      ∧ (new_items (load_previous_list FileState.missing)
          (parse_product_list [⟨none, some "Car A", false⟩])).Nodup) :=
  ⟨by decide, delta_dedup_persist_raw FileState.missing _ (by decide)⟩

end HotWheels
